import Mathlib

/-!
Shallow embedding of the screening pipeline of `agent-rss`
(`src/agent_rss/llm/base.py`, `src/agent_rss/db.py`, `src/agent_rss/main.py`)
together with theorems settling the specification claims about it.

Strings are modelled by Lean `String` (a list of characters); the Python
string primitives used by the source (`str.strip`, `str.upper`, `str.lower`,
`str.split`, `str.startswith`, substring membership `in`) are embedded as
structurally recursive functions over `List Char` so that every definition
evaluates by kernel reduction on concrete inputs.
-/

namespace AgentRss

/-- Python `str.isspace` characters relevant to `str.strip` (ASCII whitespace). -/
def isSpaceChar (c : Char) : Bool :=
  c = ' ' || c = '\t' || c = '\n' || c = '\r' || c = '\x0b' || c = '\x0c'

/-- Python `str.strip()` on a character list: drop whitespace from both ends. -/
def stripChars (cs : List Char) : List Char :=
  ((cs.dropWhile isSpaceChar).reverse.dropWhile isSpaceChar).reverse

/-- Python `s.strip()`. -/
def pyStrip (s : String) : String := String.mk (stripChars s.data)

/-- Python `s.upper()` (ASCII case mapping, which is all the source relies on). -/
def pyUpper (s : String) : String := String.mk (s.data.map Char.toUpper)

/-- Python `s.lower()` (ASCII case mapping). -/
def pyLower (s : String) : String := String.mk (s.data.map Char.toLower)

/-- Python `s.startswith(t)`. -/
def pyStartsWith (s t : String) : Bool := s.data.take t.data.length == t.data

/-- Python `s.split('\n')`: split on every newline, keeping empty pieces. -/
def splitLinesChars : List Char → List (List Char)
  | [] => [[]]
  | c :: cs =>
    if c = '\n' then [] :: splitLinesChars cs
    else
      match splitLinesChars cs with
      | [] => [[c]]
      | h :: t => (c :: h) :: t

/-- Python `s.split('\n')` lifted to `String`. -/
def pySplitLines (s : String) : List String :=
  (splitLinesChars s.data).map String.mk

/-- Python `s.split(tok, 1)[1]` when `tok` occurs in `s`: everything strictly
after the leftmost occurrence of `tok`; `none` when `tok` does not occur. -/
def tailAfterTok (tok : List Char) : List Char → Option (List Char)
  | [] => none
  | c :: cs =>
    if (c :: cs).take tok.length = tok then some ((c :: cs).drop tok.length)
    else tailAfterTok tok cs

/-- Python substring membership `tok in s`. -/
def containsStr (s tok : String) : Bool := (tailAfterTok tok.data s.data).isSome

/-- Python `line.split(':', 1)[1]` for a line known to contain a colon:
everything after the first colon (empty when no colon occurs, a case the
source never reaches because the branch guard requires a colon). -/
def afterColon : List Char → List Char
  | [] => []
  | c :: cs => if c = ':' then cs else afterColon cs

/-- Result of paper screening (`ScreeningResult` in `llm/base.py`). -/
structure ScreeningResult where
  is_relevant : Bool
  summary : String
  field_match : Bool := false
  method_match : Bool := false
  deriving Repr, DecidableEq

/-- Mutable locals of the parsing loop in `BaseLLM._parse_response`. -/
structure ParseState where
  field_match : Bool
  method_match : Bool
  summary : String
  deriving Repr, DecidableEq

/-- Python `line.split(':', 1)[1].strip().lower() in ('yes', 'true', '1')`
applied to an (already stripped) marker line. -/
def parseBoolValue (line : String) : Bool :=
  let v := pyLower (pyStrip (String.mk (afterColon line.data)))
  v == "yes" || v == "true" || v == "1"

/-- One iteration of the `for line in lines` loop of `_parse_response`:
the line is stripped, then matched (after uppercasing) against the three
markers; the first matching branch updates the corresponding local. -/
def parseLine (st : ParseState) (rawLine : String) : ParseState :=
  let line := pyStrip rawLine
  if pyStartsWith (pyUpper line) "FIELD_MATCH:" then
    { st with field_match := parseBoolValue line }
  else if pyStartsWith (pyUpper line) "METHOD_MATCH:" then
    { st with method_match := parseBoolValue line }
  else if pyStartsWith (pyUpper line) "SUMMARY:" then
    { st with summary := String.mk (stripChars (afterColon line.data)) }
  else st

/-- `BaseLLM._parse_response`: line-oriented scan over
`response.strip().split('\n')`, then the multi-line summary override
`if 'SUMMARY:' in response: summary = response.split('SUMMARY:', 1)[1].strip()`
(note: the override is case-sensitive, unlike the line scan), and finally
`is_relevant = field_match or method_match`. -/
def parse_response (response : String) : ScreeningResult :=
  let lines := pySplitLines (pyStrip response)
  let st := lines.foldl parseLine { field_match := false, method_match := false, summary := "" }
  let summary :=
    match tailAfterTok ("SUMMARY:".data) response.data with
    | some t => String.mk (stripChars t)
    | none => st.summary
  { is_relevant := st.field_match || st.method_match
    summary := summary
    field_match := st.field_match
    method_match := st.method_match }

/-- `BaseLLM.screen_paper` returns `_parse_response(self._call_api(prompt))`;
the provider's `_call_api` is abstract, so it is a parameter here. -/
def screen_paper (call_api : String → String) (prompt : String) : ScreeningResult :=
  parse_response (call_api prompt)

/-- One feed item (`Paper` dataclass in `feed.py`); the publication
timestamp is modelled as an integer instant, `none` when the feed entry
carried no date. -/
structure Paper where
  title : String
  link : String
  authors : String
  abstract : String
  published : Option Int
  source : String
  feed_url : String
  feed_group : String := "default"
  deriving Repr, DecidableEq

/-- One row of the `papers` table (`db.py`); the autoincrement `id` and the
`processed_at` wall-clock timestamp are not modelled. `paper_url` is the
UNIQUE key. -/
structure PaperRecord where
  feed_url : String
  paper_url : String
  title : String
  authors : Option String
  source : Option String
  feed_group : Option String
  is_relevant : Bool
  field_match : Bool
  method_match : Bool
  summary : Option String
  deriving Repr, DecidableEq

/-- The rows of the `papers` table whose `paper_url` equals `url`. -/
def recordsFor (db : List PaperRecord) (url : String) : List PaperRecord :=
  db.filter (fun q => q.paper_url == url)

/-- `PaperDatabase.is_processed`: `SELECT 1 FROM papers WHERE paper_url = ?`
is non-empty. -/
def is_processed (db : List PaperRecord) (paper_url : String) : Bool :=
  db.any (fun q => q.paper_url == paper_url)

/-- `PaperDatabase.mark_processed`: `INSERT OR REPLACE` keyed on the UNIQUE
`paper_url` column deletes any row with the same `paper_url` and inserts the
new row. -/
def mark_processed (db : List PaperRecord) (r : PaperRecord) : List PaperRecord :=
  db.filter (fun q => !(q.paper_url == r.paper_url)) ++ [r]

/-- One entry of the `relevant_papers` list built by `run` in `main.py`. -/
structure RelevantPaper where
  title : String
  source : String
  authors : String
  link : String
  group : String
  summary : String
  deriving Repr, DecidableEq

/-- State threaded through the screening loop of `run` in `main.py`:
the database contents, the accumulated `relevant_papers` list, plus two
observation logs — the links passed to `llm.screen_paper` (the backend-call
log) and the per-item errors reported by the `except` handler. -/
structure RunState where
  db : List PaperRecord
  relevant_papers : List RelevantPaper
  calls : List String
  errors : List String
  deriving Repr, DecidableEq

/-- The group-conditioned admission decision, `main.py` lines 190-197:
`is_high_quality = 'high' in group.lower() or 'quality' in group.lower()`,
then OR of the two signals for high-quality groups, AND otherwise. -/
def admissionOf (group : String) (r : ScreeningResult) : Bool :=
  let is_high_quality := containsStr (pyLower group) "high" || containsStr (pyLower group) "quality"
  if is_high_quality then r.field_match || r.method_match
  else r.field_match && r.method_match

/-- The `db.mark_processed(...)` argument record built in `main.py`
lines 199-210. -/
def recordOf (p : Paper) (is_rel : Bool) (r : ScreeningResult) : PaperRecord :=
  { feed_url := p.feed_url
    paper_url := p.link
    title := p.title
    authors := some p.authors
    source := some p.source
    feed_group := some p.feed_group
    is_relevant := is_rel
    field_match := r.field_match
    method_match := r.method_match
    summary := some r.summary }

/-- The body of `for paper in new_papers` in `run` (`main.py` lines 177-229).
`screen` is the effectful `llm.screen_paper` call and `markOp` the effectful
`db.mark_processed` call; `Except.error` models a raised exception. The whole
body sits in one `try`/`except Exception` block, so an exception from either
call lands in the per-item handler (error logged, loop continues). Since `run`
sets `paper.feed_group` on every fetched paper, the `getattr` fallback to
`url_to_group` never fires and the group is `p.feed_group`. -/
def runStep (screen : Paper → Except String ScreeningResult)
    (markOp : List PaperRecord → PaperRecord → Except String (List PaperRecord))
    (st : RunState) (p : Paper) : RunState :=
  match screen p with
  | Except.error e =>
    { st with
      calls := st.calls ++ [p.link]
      errors := st.errors ++ [e] }
  | Except.ok result =>
    match markOp st.db (recordOf p (admissionOf p.feed_group result) result) with
    | Except.error e =>
      { st with
        calls := st.calls ++ [p.link]
        errors := st.errors ++ [e] }
    | Except.ok db2 =>
      if admissionOf p.feed_group result then
        { st with
          db := db2
          calls := st.calls ++ [p.link]
          relevant_papers := st.relevant_papers ++
            [{ title := p.title, source := p.source, authors := p.authors,
               link := p.link, group := p.feed_group, summary := result.summary }] }
      else
        { st with
          db := db2
          calls := st.calls ++ [p.link] }

/-- A `db.mark_processed` call that succeeds (the normal persistence layer). -/
def markNormal : List PaperRecord → PaperRecord → Except String (List PaperRecord) :=
  fun db r => Except.ok (mark_processed db r)

/-- The recency filter of `main.py` lines 141-147: keep a paper when
`p.published and p.published >= cutoff_date`, or when `p.published is None`. -/
def keepRecent (cutoff : Int) (p : Paper) : Bool :=
  match p.published with
  | some t => decide (cutoff ≤ t)
  | none => true

/-- The `recent_papers` list of `run` (`main.py` lines 139-147). -/
def recentPapersOf (cutoff : Int) (all_papers : List Paper) : List Paper :=
  all_papers.filter (keepRecent cutoff)

/-- The `new_papers` list of `run` (`main.py` line 153): the recent papers not
yet present in the database as it stands at the start of the run. -/
def newPapersOf (cutoff : Int) (db0 : List PaperRecord) (all_papers : List Paper) :
    List Paper :=
  (recentPapersOf cutoff all_papers).filter (fun p => !(is_processed db0 p.link))

/-- The screening portion of `run` (`main.py` lines 137-229): date filter,
dedup filter against the database state at the start of the run, then the
per-item loop. The optional `--max-per-feed` cap defaults to 0 (disabled) and
is not modelled. -/
def runPapers (screen : Paper → Except String ScreeningResult)
    (markOp : List PaperRecord → PaperRecord → Except String (List PaperRecord))
    (cutoff : Int) (db0 : List PaperRecord) (all_papers : List Paper) : RunState :=
  (newPapersOf cutoff db0 all_papers).foldl (runStep screen markOp)
    { db := db0, relevant_papers := [], calls := [], errors := [] }

/-- A backend whose every call raises (a `BackendError` in the spec's
taxonomy). -/
def screenFail : Paper → Except String ScreeningResult :=
  fun _ => Except.error "backend error"

/-- Concrete fixture: a paper with a known timestamp earlier than the cutoffs
used in the witnesses. -/
def paperStale : Paper :=
  { title := "C", link := "u3", authors := "cc", abstract := "", published := some (-5),
    source := "s3", feed_url := "f3", feed_group := "default" }

/-- Spec reading for C3: SOME line of the response begins (case-insensitively,
after stripping) with the marker and carries an accepted value. -/
def someLineMatches (marker : String) (response : String) : Bool :=
  (pySplitLines (pyStrip response)).any
    (fun l => pyStartsWith (pyUpper (pyStrip l)) marker && parseBoolValue (pyStrip l))

/-- The last line of `lines` that begins (case-insensitively, after stripping)
with `marker`. -/
def lastMarkerLine (marker : String) : List String → Option String
  | [] => none
  | l :: ls =>
    match lastMarkerLine marker ls with
    | some r => some r
    | none => if pyStartsWith (pyUpper (pyStrip l)) marker then some l else none

/-- The boolean the parser's line loop leaves behind for a boolean marker:
the value of the last marker line, false when no such line exists. -/
def lastMarkerValue (marker : String) (response : String) : Bool :=
  match lastMarkerLine marker (pySplitLines (pyStrip response)) with
  | none => false
  | some l => parseBoolValue (pyStrip l)

/-- Everything strictly after the first case-insensitive occurrence of `tok`
(`tok` given in upper case): the spec reading for C4's "markers being matched
case-insensitively". -/
def tailAfterTokCI (tok : List Char) : List Char → Option (List Char)
  | [] => none
  | c :: cs =>
    if ((c :: cs).take tok.length).map Char.toUpper = tok then
      some ((c :: cs).drop tok.length)
    else tailAfterTokCI tok cs

/-- The summary claim C4 demands: text strictly after the first
case-insensitive occurrence of `SUMMARY:`, trimmed; empty when that marker is
absent. -/
def summarySpecCI (response : String) : String :=
  match tailAfterTokCI ("SUMMARY:".data) response.data with
  | some t => String.mk (stripChars t)
  | none => ""

/-- No recognized markers anywhere in the response: no line begins
(case-insensitively) with any of the three markers and the literal `SUMMARY:`
token does not occur. -/
def noRecognized (response : String) : Bool :=
  (lastMarkerLine "FIELD_MATCH:" (pySplitLines (pyStrip response))).isNone &&
  (lastMarkerLine "METHOD_MATCH:" (pySplitLines (pyStrip response))).isNone &&
  (lastMarkerLine "SUMMARY:" (pySplitLines (pyStrip response))).isNone &&
  !(containsStr response "SUMMARY:")

/-- Concrete fixture: a paper in the default group. -/
def paperA : Paper :=
  { title := "A", link := "u1", authors := "aa", abstract := "", published := none,
    source := "s1", feed_url := "f1", feed_group := "default" }

/-- Concrete fixture: a second paper, distinct identity, high-quality group. -/
def paperB : Paper :=
  { title := "B", link := "u2", authors := "bb", abstract := "", published := none,
    source := "s2", feed_url := "f2", feed_group := "high-quality" }

/-- A backend whose every call returns the same parsed result. -/
def screenConst (r : ScreeningResult) : Paper → Except String ScreeningResult :=
  fun _ => Except.ok r

/-- A screening result with both signals set. -/
def resultTT : ScreeningResult :=
  { is_relevant := true, summary := "sum", field_match := true, method_match := true }

/-- A persistence layer whose write raises exactly for the given identity
(modelling a `sqlite3` error surfacing out of `mark_processed`). -/
def markFailOn (url : String) :
    List PaperRecord → PaperRecord → Except String (List PaperRecord) :=
  fun db r =>
    if r.paper_url == url then Except.error "store failure"
    else Except.ok (mark_processed db r)

example : parse_response "FIELD_MATCH: yes\nMETHOD_MATCH: no\nSUMMARY: Problem: X | Method: Y"
    = { is_relevant := true, summary := "Problem: X | Method: Y",
        field_match := true, method_match := false } := by decide

example : parse_response "random free text" =
    { is_relevant := false, summary := "", field_match := false, method_match := false } := by
  decide

example : (parse_response "FIELD_MATCH: yes\nFIELD_MATCH: no").field_match = false := by decide

example : (parse_response "summary: a\nb").summary = "a" := by decide

example : (parse_response "SUMMARY: a\nb").summary = "a\nb" := by decide

example :
    (runPapers (screenConst resultTT) (markFailOn "u1") 0 [] [paperA, paperB]).errors
      = ["store failure"] := by decide

example :
    is_processed (runPapers (screenConst resultTT) (markFailOn "u1") 0 [] [paperA, paperB]).db "u2"
      = true := by decide

example :
    (runPapers (screenConst resultTT) (markFailOn "u1") 0 [] [paperA, paperB]).calls
      = ["u1", "u2"] := by decide

example :
    (runPapers (screenConst resultTT) markNormal 0 [] [paperA, paperB]).relevant_papers.map
      (fun a => a.link) = ["u1", "u2"] := by decide

example : admissionOf "high-quality"
    { is_relevant := true, summary := "", field_match := true, method_match := false }
    = true := by decide

example : admissionOf "default"
    { is_relevant := true, summary := "", field_match := true, method_match := false }
    = false := by decide

/-! Helper lemmas about the store. -/

theorem recordsFor_mark (db : List PaperRecord) (r : PaperRecord) (u : String) :
    recordsFor (mark_processed db r) u =
      if r.paper_url = u then [r] else recordsFor db u := by
  unfold recordsFor mark_processed
  rw [List.filter_append]
  by_cases h : r.paper_url = u
  · subst h
    rw [List.filter_filter]
    simp
  · rw [List.filter_filter]
    have hcongr : ∀ q ∈ db,
        ((q.paper_url == u) && !(q.paper_url == r.paper_url)) = (q.paper_url == u) := by
      intro q _
      by_cases hq : q.paper_url = u
      · subst hq
        have hne : ¬ q.paper_url = r.paper_url := fun hh => h hh.symm
        simp [hne]
      · simp [hq]
    rw [List.filter_congr hcongr]
    simp [h]

theorem is_processed_mark_self (db : List PaperRecord) (r : PaperRecord) :
    is_processed (mark_processed db r) r.paper_url = true := by
  simp [is_processed, mark_processed]

theorem recordsFor_eq_nil_of_not_processed (db : List PaperRecord) (u : String)
    (h : is_processed db u = false) : recordsFor db u = [] := by
  unfold is_processed at h
  unfold recordsFor
  rw [List.filter_eq_nil_iff]
  intro q hq
  rw [List.any_eq_false] at h
  exact h q hq

/-! Helper lemmas about one iteration of the screening loop. -/

theorem runStep_calls (screen : Paper → Except String ScreeningResult)
    (markOp : List PaperRecord → PaperRecord → Except String (List PaperRecord))
    (st : RunState) (p : Paper) :
    (runStep screen markOp st p).calls = st.calls ++ [p.link] := by
  cases hs : screen p with
  | error e => simp [runStep, hs]
  | ok r =>
    cases hm : markOp st.db (recordOf p (admissionOf p.feed_group r) r) with
    | error e => simp [runStep, hs, hm]
    | ok db2 =>
      simp only [runStep, hs, hm]
      cases hadm : admissionOf p.feed_group r <;> simp [hadm]

theorem runStep_screen_error (screen : Paper → Except String ScreeningResult)
    (markOp : List PaperRecord → PaperRecord → Except String (List PaperRecord))
    (st : RunState) (p : Paper) (e : String) (h : screen p = Except.error e) :
    runStep screen markOp st p
      = { st with calls := st.calls ++ [p.link], errors := st.errors ++ [e] } := by
  simp only [runStep, h]

theorem runStep_mark_error (screen : Paper → Except String ScreeningResult)
    (markOp : List PaperRecord → PaperRecord → Except String (List PaperRecord))
    (st : RunState) (p : Paper) (r : ScreeningResult) (e : String)
    (h1 : screen p = Except.ok r)
    (h2 : markOp st.db (recordOf p (admissionOf p.feed_group r) r) = Except.error e) :
    runStep screen markOp st p
      = { st with calls := st.calls ++ [p.link], errors := st.errors ++ [e] } := by
  simp only [runStep, h1, h2]

theorem runStep_ok_normal (screen : Paper → Except String ScreeningResult)
    (st : RunState) (p : Paper) (r : ScreeningResult)
    (h : screen p = Except.ok r) :
    runStep screen markNormal st p =
      if admissionOf p.feed_group r then
        { st with
          db := mark_processed st.db (recordOf p true r)
          calls := st.calls ++ [p.link]
          relevant_papers := st.relevant_papers ++
            [{ title := p.title, source := p.source, authors := p.authors,
               link := p.link, group := p.feed_group, summary := r.summary }] }
      else
        { st with
          db := mark_processed st.db (recordOf p false r)
          calls := st.calls ++ [p.link] } := by
  simp only [runStep, markNormal, h]
  cases hadm : admissionOf p.feed_group r <;> simp [hadm]

theorem runStep_db_ne (screen : Paper → Except String ScreeningResult)
    (st : RunState) (p : Paper) (u : String) (h : p.link ≠ u) :
    recordsFor (runStep screen markNormal st p).db u = recordsFor st.db u := by
  cases hs : screen p with
  | error e => simp [runStep, hs]
  | ok r =>
    rw [runStep_ok_normal screen st p r hs]
    cases hadm : admissionOf p.feed_group r <;>
      simp [hadm, recordsFor_mark, recordOf, h]

theorem runStep_relevant_sub (screen : Paper → Except String ScreeningResult)
    (markOp : List PaperRecord → PaperRecord → Except String (List PaperRecord))
    (st : RunState) (p : Paper) (a : RelevantPaper)
    (ha : a ∈ (runStep screen markOp st p).relevant_papers) :
    a ∈ st.relevant_papers ∨ a.link = p.link := by
  cases hs : screen p with
  | error e =>
    rw [runStep_screen_error screen markOp st p e hs] at ha
    exact Or.inl ha
  | ok r =>
    cases hm : markOp st.db (recordOf p (admissionOf p.feed_group r) r) with
    | error e =>
      rw [runStep_mark_error screen markOp st p r e hs hm] at ha
      exact Or.inl ha
    | ok db2 =>
      simp only [runStep, hs, hm] at ha
      cases hadm : admissionOf p.feed_group r
      · simp [hadm] at ha
        exact Or.inl ha
      · simp [hadm] at ha
        rcases ha with ha | ha
        · exact Or.inl ha
        · subst ha
          exact Or.inr rfl

theorem runStep_records_le (screen : Paper → Except String ScreeningResult)
    (st : RunState) (p : Paper) (u : String)
    (h : (recordsFor st.db u).length ≤ 1) :
    (recordsFor (runStep screen markNormal st p).db u).length ≤ 1 := by
  cases hs : screen p with
  | error e => simpa [runStep, hs] using h
  | ok r =>
    rw [runStep_ok_normal screen st p r hs]
    cases hadm : admissionOf p.feed_group r <;>
      · simp only [hadm, if_true, if_false, Bool.false_eq_true, recordsFor_mark, recordOf]
        split
        · simp
        · exact h

/-! Fold versions of the per-iteration lemmas. -/

theorem foldl_calls (screen : Paper → Except String ScreeningResult)
    (markOp : List PaperRecord → PaperRecord → Except String (List PaperRecord))
    (ps : List Paper) : ∀ st : RunState,
    (ps.foldl (runStep screen markOp) st).calls = st.calls ++ ps.map (fun p => p.link) := by
  induction ps with
  | nil => intro st; simp
  | cons p ps ih =>
    intro st
    rw [List.foldl_cons, ih, runStep_calls]
    simp

theorem foldl_db_untouched (screen : Paper → Except String ScreeningResult)
    (ps : List Paper) : ∀ (st : RunState) (u : String), (∀ p ∈ ps, p.link ≠ u) →
    recordsFor (ps.foldl (runStep screen markNormal) st).db u = recordsFor st.db u := by
  induction ps with
  | nil => intro st u _; rfl
  | cons p ps ih =>
    intro st u h
    rw [List.foldl_cons, ih _ u (fun q hq => h q (List.mem_cons_of_mem p hq)),
      runStep_db_ne screen st p u (h p (List.mem_cons_self p ps))]

theorem foldl_relevant_ne (screen : Paper → Except String ScreeningResult)
    (markOp : List PaperRecord → PaperRecord → Except String (List PaperRecord))
    (ps : List Paper) : ∀ (st : RunState) (u : String), (∀ p ∈ ps, p.link ≠ u) →
    (∀ a ∈ st.relevant_papers, a.link ≠ u) →
    ∀ a ∈ (ps.foldl (runStep screen markOp) st).relevant_papers, a.link ≠ u := by
  induction ps with
  | nil => intro st u _ hst; exact hst
  | cons p ps ih =>
    intro st u h hst
    rw [List.foldl_cons]
    apply ih _ u (fun q hq => h q (List.mem_cons_of_mem p hq))
    intro a ha
    rcases runStep_relevant_sub screen markOp st p a ha with h1 | h1
    · exact hst a h1
    · rw [h1]
      exact h p (List.mem_cons_self p ps)

theorem foldl_records_le (screen : Paper → Except String ScreeningResult)
    (ps : List Paper) : ∀ (st : RunState) (u : String),
    (recordsFor st.db u).length ≤ 1 →
    (recordsFor (ps.foldl (runStep screen markNormal) st).db u).length ≤ 1 := by
  induction ps with
  | nil => intro st u h; exact h
  | cons p ps ih =>
    intro st u h
    rw [List.foldl_cons]
    exact ih _ u (runStep_records_le screen st p u h)

theorem mem_newPapers_link_ne (cutoff : Int) (db0 : List PaperRecord)
    (papers : List Paper) (u : String) (h : is_processed db0 u = true) :
    ∀ q ∈ newPapersOf cutoff db0 papers, q.link ≠ u := by
  intro q hq hlink
  have h2 := (List.mem_filter.mp hq).2
  rw [hlink, h] at h2
  simp at h2

/-! Helper lemmas about the response parser. -/

theorem pyStartsWith_head (s t : String) (c : Char) (ts : List Char)
    (ht : t.data = c :: ts) (h : pyStartsWith s t = true) :
    ∃ ds, s.data = c :: ds := by
  unfold pyStartsWith at h
  have h2 : s.data.take t.data.length = t.data := eq_of_beq h
  rw [ht] at h2
  cases hs : s.data with
  | nil =>
    rw [hs] at h2
    simp at h2
  | cons x xs =>
    rw [hs, List.length_cons, List.take_succ_cons] at h2
    injection h2 with h3 _
    exact ⟨xs, by rw [h3]⟩

theorem pyStartsWith_ne_head (s t1 t2 : String) (c1 c2 : Char) (r1 r2 : List Char)
    (ht1 : t1.data = c1 :: r1) (ht2 : t2.data = c2 :: r2) (hne : c1 ≠ c2)
    (h : pyStartsWith s t1 = true) : pyStartsWith s t2 = false := by
  by_contra hc
  rw [Bool.not_eq_false] at hc
  obtain ⟨ds1, hd1⟩ := pyStartsWith_head s t1 c1 r1 ht1 h
  obtain ⟨ds2, hd2⟩ := pyStartsWith_head s t2 c2 r2 ht2 hc
  rw [hd1] at hd2
  injection hd2 with h1 _
  exact hne h1

theorem method_marker_not_field (s : String)
    (h : pyStartsWith s "METHOD_MATCH:" = true) :
    pyStartsWith s "FIELD_MATCH:" = false :=
  pyStartsWith_ne_head s "METHOD_MATCH:" "FIELD_MATCH:" 'M' 'F'
    ("ETHOD_MATCH:".data) ("IELD_MATCH:".data) rfl rfl (by decide) h

theorem summary_marker_not_field (s : String)
    (h : pyStartsWith s "SUMMARY:" = true) :
    pyStartsWith s "FIELD_MATCH:" = false :=
  pyStartsWith_ne_head s "SUMMARY:" "FIELD_MATCH:" 'S' 'F'
    ("UMMARY:".data) ("IELD_MATCH:".data) rfl rfl (by decide) h

theorem summary_marker_not_method (s : String)
    (h : pyStartsWith s "SUMMARY:" = true) :
    pyStartsWith s "METHOD_MATCH:" = false :=
  pyStartsWith_ne_head s "SUMMARY:" "METHOD_MATCH:" 'S' 'M'
    ("UMMARY:".data) ("ETHOD_MATCH:".data) rfl rfl (by decide) h

theorem foldl_parseLine_field (lines : List String) : ∀ st : ParseState,
    (lines.foldl parseLine st).field_match
      = (match lastMarkerLine "FIELD_MATCH:" lines with
         | none => st.field_match
         | some l => parseBoolValue (pyStrip l)) := by
  induction lines with
  | nil => intro st; rfl
  | cons l ls ih =>
    intro st
    rw [List.foldl_cons, ih]
    cases hl : lastMarkerLine "FIELD_MATCH:" ls with
    | some r => simp only [lastMarkerLine, hl]
    | none =>
      simp only [lastMarkerLine, hl]
      cases hF : pyStartsWith (pyUpper (pyStrip l)) "FIELD_MATCH:" with
      | true => simp [parseLine, hF]
      | false =>
        simp only [hF, Bool.false_eq_true, if_false]
        simp only [parseLine, hF, Bool.false_eq_true, if_false]
        split
        · rfl
        · split
          · rfl
          · rfl

theorem foldl_parseLine_method (lines : List String) : ∀ st : ParseState,
    (lines.foldl parseLine st).method_match
      = (match lastMarkerLine "METHOD_MATCH:" lines with
         | none => st.method_match
         | some l => parseBoolValue (pyStrip l)) := by
  induction lines with
  | nil => intro st; rfl
  | cons l ls ih =>
    intro st
    rw [List.foldl_cons, ih]
    cases hl : lastMarkerLine "METHOD_MATCH:" ls with
    | some r => simp only [lastMarkerLine, hl]
    | none =>
      simp only [lastMarkerLine, hl]
      cases hM : pyStartsWith (pyUpper (pyStrip l)) "METHOD_MATCH:" with
      | true =>
        have hF := method_marker_not_field (pyUpper (pyStrip l)) hM
        simp [parseLine, hF, hM]
      | false =>
        simp only [hM, Bool.false_eq_true, if_false]
        simp only [parseLine, hM, Bool.false_eq_true, if_false]
        split
        · rfl
        · split
          · rfl
          · rfl

theorem foldl_parseLine_summary (lines : List String) : ∀ st : ParseState,
    (lines.foldl parseLine st).summary
      = (match lastMarkerLine "SUMMARY:" lines with
         | none => st.summary
         | some l => String.mk (stripChars (afterColon (pyStrip l).data))) := by
  induction lines with
  | nil => intro st; rfl
  | cons l ls ih =>
    intro st
    rw [List.foldl_cons, ih]
    cases hl : lastMarkerLine "SUMMARY:" ls with
    | some r => simp only [lastMarkerLine, hl]
    | none =>
      simp only [lastMarkerLine, hl]
      cases hS : pyStartsWith (pyUpper (pyStrip l)) "SUMMARY:" with
      | true =>
        have hF := summary_marker_not_field (pyUpper (pyStrip l)) hS
        have hM := summary_marker_not_method (pyUpper (pyStrip l)) hS
        simp [parseLine, hF, hM, hS]
      | false =>
        simp only [hS, Bool.false_eq_true, if_false]
        simp only [parseLine, hS, Bool.false_eq_true, if_false]
        split
        · rfl
        · split
          · rfl
          · rfl

/-! Claim theorems. -/

/-- C2: the store keeps at most one record per item identity — after recording
the same `paper_url` twice (with any verdict fields) the rows for that
identity are exactly the one row of the latest call; `is_processed` is true
for that identity right after the first `mark_processed`; and on the empty
store `is_processed` is false for every identity. -/
theorem C2_store_upsert (db : List PaperRecord) (r1 r2 : PaperRecord) (u : String)
    (h : r1.paper_url = r2.paper_url) :
    recordsFor (mark_processed (mark_processed db r1) r2) r2.paper_url = [r2]
    ∧ is_processed (mark_processed db r1) r1.paper_url = true
    ∧ is_processed ([] : List PaperRecord) u = false := by
  refine ⟨?_, is_processed_mark_self db r1, rfl⟩
  rw [recordsFor_mark]
  simp

/-- Witness for C2 at concrete records sharing the identity `"u1"`. -/
theorem C2_store_upsert_witness :
    (recordOf paperA true resultTT).paper_url = (recordOf paperA false resultTT).paper_url
    ∧ recordsFor
        (mark_processed (mark_processed [] (recordOf paperA true resultTT))
          (recordOf paperA false resultTT))
        (recordOf paperA false resultTT).paper_url = [recordOf paperA false resultTT]
    ∧ is_processed (mark_processed [] (recordOf paperA true resultTT))
        (recordOf paperA true resultTT).paper_url = true
    ∧ is_processed ([] : List PaperRecord) "zzz" = false := by
  have hmain := C2_store_upsert [] (recordOf paperA true resultTT)
    (recordOf paperA false resultTT) "zzz" rfl
  exact ⟨rfl, hmain.1, hmain.2.1, hmain.2.2⟩

/-- C5 counterexample: at a concrete run whose store write raises for the
first item, the error is caught (reported per-item), the first item's verdict
is dropped, and the run continues: the second item is still classified and
persisted. This contradicts the claim that a `mark_processed` failure
propagates and aborts the run. -/
theorem C5_counterexample :
    (runPapers (screenConst resultTT) (markFailOn "u1") 0 [] [paperA, paperB]).errors
        = ["store failure"]
    ∧ is_processed
        (runPapers (screenConst resultTT) (markFailOn "u1") 0 [] [paperA, paperB]).db "u1"
        = false
    ∧ is_processed
        (runPapers (screenConst resultTT) (markFailOn "u1") 0 [] [paperA, paperB]).db "u2"
        = true
    ∧ (runPapers (screenConst resultTT) (markFailOn "u1") 0 [] [paperA, paperB]).calls
        = ["u1", "u2"] := by
  decide

/-- C5 (amended): when the store's `mark_processed` raises for an item, the
per-item `except` handler catches it — nothing is persisted for the item, it
is absent from the admitted output, the error is reported, and the run
continues with the remaining items from an otherwise unchanged state. -/
theorem C5_amended_store_error_isolated
    (screen : Paper → Except String ScreeningResult)
    (markOp : List PaperRecord → PaperRecord → Except String (List PaperRecord))
    (st : RunState) (p : Paper) (r : ScreeningResult) (e : String) (rest : List Paper)
    (h1 : screen p = Except.ok r)
    (h2 : markOp st.db (recordOf p (admissionOf p.feed_group r) r) = Except.error e) :
    (p :: rest).foldl (runStep screen markOp) st
      = rest.foldl (runStep screen markOp)
          { st with calls := st.calls ++ [p.link], errors := st.errors ++ [e] }
    ∧ (runStep screen markOp st p).db = st.db
    ∧ (runStep screen markOp st p).relevant_papers = st.relevant_papers := by
  have hstep := runStep_mark_error screen markOp st p r e h1 h2
  exact ⟨by rw [List.foldl_cons, hstep], by rw [hstep], by rw [hstep]⟩

/-- Witness for the amended C5 at a concrete failing store. -/
theorem C5_amended_store_error_isolated_witness :
    (runStep (screenConst resultTT) (markFailOn "u1")
      { db := [], relevant_papers := [], calls := [], errors := [] } paperA).db = []
    ∧ (runStep (screenConst resultTT) (markFailOn "u1")
        { db := [], relevant_papers := [], calls := [], errors := [] } paperA).relevant_papers
        = [] := by
  have hmain := C5_amended_store_error_isolated (screenConst resultTT) (markFailOn "u1")
    { db := [], relevant_papers := [], calls := [], errors := [] } paperA resultTT
    "store failure" [paperB] rfl rfl
  exact ⟨hmain.2.1, hmain.2.2⟩

/-- C6: cross-run de-duplication — for an identity the store already holds at
the start of a run, that run never calls the classifier for it, leaves its
stored rows exactly as they were, and admits nothing with that identity. -/
theorem C6_cross_run_dedup (screen : Paper → Except String ScreeningResult)
    (cutoff : Int) (db0 : List PaperRecord) (papers : List Paper) (u : String)
    (h : is_processed db0 u = true) :
    ¬ (u ∈ (runPapers screen markNormal cutoff db0 papers).calls)
    ∧ recordsFor (runPapers screen markNormal cutoff db0 papers).db u = recordsFor db0 u
    ∧ ∀ a ∈ (runPapers screen markNormal cutoff db0 papers).relevant_papers, a.link ≠ u := by
  have hnew := mem_newPapers_link_ne cutoff db0 papers u h
  unfold runPapers
  refine ⟨?_, ?_, ?_⟩
  · rw [foldl_calls]
    intro hmem
    simp only [List.nil_append] at hmem
    rcases List.mem_map.mp hmem with ⟨q, hq, hlink⟩
    exact hnew q hq hlink
  · exact foldl_db_untouched screen _ _ u hnew
  · exact foldl_relevant_ne screen markNormal _ _ u hnew
      (by intro a ha; cases ha)

/-- Witness for C6: `"u1"` is already stored, the run sees it again and never
classifies it. -/
theorem C6_cross_run_dedup_witness :
    is_processed [recordOf paperA true resultTT] "u1" = true
    ∧ ¬ ("u1" ∈ (runPapers (screenConst resultTT) markNormal 0
        [recordOf paperA true resultTT] [paperA, paperB]).calls)
    ∧ recordsFor (runPapers (screenConst resultTT) markNormal 0
        [recordOf paperA true resultTT] [paperA, paperB]).db "u1"
      = recordsFor [recordOf paperA true resultTT] "u1" := by
  have hmain := C6_cross_run_dedup (screenConst resultTT) 0
    [recordOf paperA true resultTT] [paperA, paperB] "u1" (by decide)
  exact ⟨by decide, hmain.1, hmain.2.1⟩

/-- C7: per-item failure isolation — when the backend call for an item raises,
nothing is persisted for it, it is absent from the admitted output, and the
run continues with the remaining items from an otherwise unchanged state. -/
theorem C7_backend_error_isolated
    (screen : Paper → Except String ScreeningResult)
    (markOp : List PaperRecord → PaperRecord → Except String (List PaperRecord))
    (st : RunState) (p : Paper) (e : String) (rest : List Paper)
    (h : screen p = Except.error e) :
    (p :: rest).foldl (runStep screen markOp) st
      = rest.foldl (runStep screen markOp)
          { st with calls := st.calls ++ [p.link], errors := st.errors ++ [e] }
    ∧ (runStep screen markOp st p).db = st.db
    ∧ (runStep screen markOp st p).relevant_papers = st.relevant_papers := by
  have hstep := runStep_screen_error screen markOp st p e h
  exact ⟨by rw [List.foldl_cons, hstep], by rw [hstep], by rw [hstep]⟩

/-- Witness for C7: a backend that raises on the first item; the second item
is still classified and persisted in the same run. -/
theorem C7_backend_error_isolated_witness :
    (runStep screenFail markNormal
      { db := [], relevant_papers := [], calls := [], errors := [] } paperA).db = []
    ∧ (runStep screenFail markNormal
        { db := [], relevant_papers := [], calls := [], errors := [] } paperA).relevant_papers
        = [] := by
  have hmain := C7_backend_error_isolated screenFail markNormal
    { db := [], relevant_papers := [], calls := [], errors := [] } paperA
    "backend error" [paperB] rfl
  exact ⟨hmain.2.1, hmain.2.2⟩

/-- C9: in-run duplicate identities — for a batch containing two items with
the same identity, none of which the store already holds, the store ends the
run with at most one row for that identity. -/
theorem C9_in_run_duplicates (screen : Paper → Except String ScreeningResult)
    (cutoff : Int) (db0 : List PaperRecord) (papers : List Paper)
    (p1 p2 : Paper) (u : String)
    (h1 : p1 ∈ papers) (h2 : p2 ∈ papers) (h3 : p1.link = u) (h4 : p2.link = u)
    (h5 : is_processed db0 u = false) :
    (recordsFor (runPapers screen markNormal cutoff db0 papers).db u).length ≤ 1 := by
  unfold runPapers
  apply foldl_records_le
  show (recordsFor db0 u).length ≤ 1
  rw [recordsFor_eq_nil_of_not_processed db0 u h5]
  simp

/-- Witness for C9: the same paper twice in one batch over an empty store. -/
theorem C9_in_run_duplicates_witness :
    is_processed ([] : List PaperRecord) "u1" = false
    ∧ (recordsFor (runPapers (screenConst resultTT) markNormal 0 []
        [paperA, paperA]).db "u1").length ≤ 1 := by
  refine ⟨rfl, ?_⟩
  exact C9_in_run_duplicates (screenConst resultTT) 0 [] [paperA, paperA]
    paperA paperA "u1" (by decide) (by decide) rfl rfl rfl

/-- C1: for every screened item the admission decision is the pure function
of `(field_match, method_match, group_label)` spelled out by the policy — OR
of the signals when the lowercased group label contains `"high"` or
`"quality"`, AND otherwise; the persisted row's `is_relevant` flag carries
exactly this value, and the item joins the run's admitted output iff the
value is true. -/
theorem C1_admission_policy (screen : Paper → Except String ScreeningResult)
    (st : RunState) (p : Paper) (r : ScreeningResult)
    (h : screen p = Except.ok r) :
    admissionOf p.feed_group r =
      (if containsStr (pyLower p.feed_group) "high"
          || containsStr (pyLower p.feed_group) "quality"
       then r.field_match || r.method_match
       else r.field_match && r.method_match)
    ∧ recordsFor (runStep screen markNormal st p).db p.link
        = [recordOf p (admissionOf p.feed_group r) r]
    ∧ (runStep screen markNormal st p).relevant_papers
        = st.relevant_papers ++
          (if admissionOf p.feed_group r then
            [{ title := p.title, source := p.source, authors := p.authors,
               link := p.link, group := p.feed_group, summary := r.summary }]
           else []) := by
  refine ⟨rfl, ?_, ?_⟩
  · rw [runStep_ok_normal screen st p r h]
    cases hadm : admissionOf p.feed_group r <;>
      simp [hadm, recordsFor_mark, recordOf]
  · rw [runStep_ok_normal screen st p r h]
    cases hadm : admissionOf p.feed_group r <;> simp [hadm]

/-- Witness for C1 at a `field ∧ ¬method` verdict in the default group:
the persisted flag is false and nothing is admitted. -/
theorem C1_admission_policy_witness :
    recordsFor (runStep
        (screenConst { is_relevant := true, summary := "s",
                       field_match := true, method_match := false })
        markNormal { db := [], relevant_papers := [], calls := [], errors := [] }
        paperA).db paperA.link
      = [recordOf paperA
          (admissionOf paperA.feed_group
            { is_relevant := true, summary := "s",
              field_match := true, method_match := false })
          { is_relevant := true, summary := "s",
            field_match := true, method_match := false }]
    ∧ admissionOf paperA.feed_group
        { is_relevant := true, summary := "s",
          field_match := true, method_match := false } = false := by
  have hmain := C1_admission_policy
    (screenConst { is_relevant := true, summary := "s",
                   field_match := true, method_match := false })
    { db := [], relevant_papers := [], calls := [], errors := [] } paperA
    { is_relevant := true, summary := "s", field_match := true, method_match := false }
    rfl
  exact ⟨hmain.2.1, by decide⟩

/-- C8: the staleness filter — an item with a known timestamp strictly older
than the cutoff is excluded from `recent_papers` (hence never classified or
persisted: when every batch item with its identity is stale, the run makes no
backend call for that identity and leaves its stored rows untouched), while
an item with no timestamp always passes the filter. -/
theorem C8_staleness_filter (screen : Paper → Except String ScreeningResult)
    (cutoff : Int) (db0 : List PaperRecord) (papers : List Paper)
    (p : Paper) (t : Int)
    (hp : p.published = some t) (hstale : t < cutoff) :
    ¬ (p ∈ recentPapersOf cutoff papers)
    ∧ ((∀ q ∈ papers, q.link = p.link → ∃ s, q.published = some s ∧ s < cutoff) →
        ¬ (p.link ∈ (runPapers screen markNormal cutoff db0 papers).calls)
        ∧ recordsFor (runPapers screen markNormal cutoff db0 papers).db p.link
            = recordsFor db0 p.link)
    ∧ (∀ q : Paper, q.published = none → keepRecent cutoff q = true) := by
  refine ⟨?_, ?_, ?_⟩
  · intro hmem
    have hk := (List.mem_filter.mp hmem).2
    rw [keepRecent, hp] at hk
    simp at hk
    omega
  · intro hall
    have hnew : ∀ q ∈ newPapersOf cutoff db0 papers, q.link ≠ p.link := by
      intro q hq hlink
      have hrec : q ∈ recentPapersOf cutoff papers := (List.mem_filter.mp hq).1
      have hkeep := (List.mem_filter.mp hrec).2
      have hqp : q ∈ papers := (List.mem_filter.mp hrec).1
      rcases hall q hqp hlink with ⟨s, hs1, hs2⟩
      rw [keepRecent, hs1] at hkeep
      simp at hkeep
      omega
    constructor
    · unfold runPapers
      rw [foldl_calls]
      intro hmem
      simp only [List.nil_append] at hmem
      rcases List.mem_map.mp hmem with ⟨q, hq, hlink⟩
      exact hnew q hq hlink
    · exact foldl_db_untouched screen _ _ p.link hnew
  · intro q hq
    rw [keepRecent, hq]

/-- Witness for C8: a paper dated before the cutoff is filtered out and its
identity is never classified. -/
theorem C8_staleness_filter_witness :
    paperStale.published = some (-5) ∧ (-5 : Int) < 0
    ∧ ¬ (paperStale ∈ recentPapersOf 0 [paperStale])
    ∧ ¬ (paperStale.link ∈ (runPapers (screenConst resultTT) markNormal 0 []
        [paperStale]).calls) := by
  have hall : ∀ q ∈ [paperStale], q.link = paperStale.link →
      ∃ s, q.published = some s ∧ s < 0 := by
    intro q hq _
    rw [List.mem_singleton] at hq
    subst hq
    exact ⟨-5, rfl, by decide⟩
  have hmain := C8_staleness_filter (screenConst resultTT) 0 [] [paperStale]
    paperStale (-5) rfl (by decide)
  exact ⟨rfl, by decide, hmain.1, (hmain.2.1 hall).1⟩

/-- C3 counterexample: the claim's "some line" reading fails — in a response
whose first `FIELD_MATCH:` line carries `yes` and whose last carries `no`,
some line qualifies, yet the parser reports `field_match = false` (each
matching line overwrites the previous value). -/
theorem C3_counterexample :
    someLineMatches "FIELD_MATCH:" "FIELD_MATCH: yes\nFIELD_MATCH: no" = true
    ∧ (parse_response "FIELD_MATCH: yes\nFIELD_MATCH: no").field_match = false := by
  decide

/-- C3 (amended): the parser is total, and `field_match` is the accepted-set
membership of the LAST line beginning (case-insensitively, after stripping)
with `FIELD_MATCH:`, false when no such line exists; `method_match` likewise;
a response with no recognized markers yields `(false, false, "")`. -/
theorem C3_amended_last_marker (s : String) :
    (parse_response s).field_match = lastMarkerValue "FIELD_MATCH:" s
    ∧ (parse_response s).method_match = lastMarkerValue "METHOD_MATCH:" s
    ∧ (noRecognized s = true →
        parse_response s =
          { is_relevant := false, summary := "",
            field_match := false, method_match := false }) := by
  have hf : (parse_response s).field_match
      = ((pySplitLines (pyStrip s)).foldl parseLine
          { field_match := false, method_match := false, summary := "" }).field_match := rfl
  have hm : (parse_response s).method_match
      = ((pySplitLines (pyStrip s)).foldl parseLine
          { field_match := false, method_match := false, summary := "" }).method_match := rfl
  refine ⟨?_, ?_, ?_⟩
  · rw [hf, foldl_parseLine_field]
    rfl
  · rw [hm, foldl_parseLine_method]
    rfl
  · intro hno
    simp only [noRecognized, Bool.and_eq_true, Bool.not_eq_true'] at hno
    obtain ⟨⟨⟨hF, hM⟩, hS⟩, hC⟩ := hno
    rw [Option.isNone_iff_eq_none] at hF hM hS
    have hta : tailAfterTok ("SUMMARY:".data) s.data = none := by
      cases h : tailAfterTok ("SUMMARY:".data) s.data with
      | none => rfl
      | some t =>
        unfold containsStr at hC
        rw [h] at hC
        simp at hC
    have hs0 : (parse_response s).summary = "" := by
      have h2 : (parse_response s).summary
          = ((pySplitLines (pyStrip s)).foldl parseLine
              { field_match := false, method_match := false, summary := "" }).summary := by
        simp only [parse_response, hta]
      rw [h2, foldl_parseLine_summary, hS]
    have hf0 : (parse_response s).field_match = false := by
      rw [hf, foldl_parseLine_field, hF]
    have hm0 : (parse_response s).method_match = false := by
      rw [hm, foldl_parseLine_method, hM]
    have hr0 : (parse_response s).is_relevant = false := by
      have h2 : (parse_response s).is_relevant
          = ((parse_response s).field_match || (parse_response s).method_match) := rfl
      rw [h2, hf0, hm0]
      rfl
    calc parse_response s
        = { is_relevant := (parse_response s).is_relevant,
            summary := (parse_response s).summary,
            field_match := (parse_response s).field_match,
            method_match := (parse_response s).method_match } := rfl
      _ = { is_relevant := false, summary := "",
            field_match := false, method_match := false } := by
          rw [hr0, hf0, hm0, hs0]

/-- Witness for the amended C3 on a marker-free response. -/
theorem C3_amended_last_marker_witness :
    noRecognized "plain text" = true
    ∧ parse_response "plain text" =
        { is_relevant := false, summary := "",
          field_match := false, method_match := false } :=
  ⟨by decide, (C3_amended_last_marker "plain text").2.2 (by decide)⟩

/-- C4 counterexample: the claim's case-insensitive reading of the multi-line
summary capture fails — for response `"summary: a\nb"` the claim demands
everything after the (case-insensitive) marker, `"a\nb"`, but the parser's
multi-line override matches the literal `SUMMARY:` only, so the lowercase
marker is handled by the single-line scan and the parsed summary is `"a"`. -/
theorem C4_counterexample :
    summarySpecCI "summary: a\nb" = "a\nb"
    ∧ (parse_response "summary: a\nb").summary = "a"
    ∧ ¬ (("a" : String) = "a\nb") := by
  decide

/-- C4 (amended): for every response in which the LITERAL (case-sensitive)
token `SUMMARY:` occurs, the parsed summary is everything strictly after its
first occurrence, subsequent lines included, trimmed; when neither the
literal token occurs nor any line begins case-insensitively with the marker,
the summary is empty and no error occurs. -/
theorem C4_amended_summary (s : String) :
    (∀ t, tailAfterTok ("SUMMARY:".data) s.data = some t →
        (parse_response s).summary = String.mk (stripChars t))
    ∧ (tailAfterTok ("SUMMARY:".data) s.data = none →
        lastMarkerLine "SUMMARY:" (pySplitLines (pyStrip s)) = none →
        (parse_response s).summary = "") := by
  constructor
  · intro t ht
    simp only [parse_response, ht]
  · intro hnone hline
    have h2 : (parse_response s).summary
        = ((pySplitLines (pyStrip s)).foldl parseLine
            { field_match := false, method_match := false, summary := "" }).summary := by
      simp only [parse_response, hnone]
    rw [h2, foldl_parseLine_summary, hline]

/-- Witness for the amended C4: a multi-line summary is captured whole. -/
theorem C4_amended_summary_witness :
    (parse_response "SUMMARY: hi\nthere").summary = "hi\nthere" := by
  have h := (C4_amended_summary "SUMMARY: hi\nthere").1 ((" hi\nthere").data) (by decide)
  rw [h]
  decide

/-- C10: `screen_paper` always returns `is_relevant = field_match OR
method_match`, independent of any group label; the pipeline recomputes the
stored decision from the group policy instead of using this field, so for a
non-high-quality group with `(field, ¬method)` the returned `is_relevant` is
true while the persisted row carries `is_relevant = false`. -/
theorem C10_is_relevant_recomputed :
    (∀ (call_api : String → String) (prompt : String),
      (screen_paper call_api prompt).is_relevant
        = ((screen_paper call_api prompt).field_match
            || (screen_paper call_api prompt).method_match))
    ∧ ∀ (screen : Paper → Except String ScreeningResult) (st : RunState)
        (p : Paper) (s : String),
        screen p = Except.ok (parse_response s) →
        (parse_response s).field_match = true →
        (parse_response s).method_match = false →
        containsStr (pyLower p.feed_group) "high" = false →
        containsStr (pyLower p.feed_group) "quality" = false →
        (parse_response s).is_relevant = true
        ∧ recordsFor (runStep screen markNormal st p).db p.link
            = [recordOf p false (parse_response s)] := by
  constructor
  · intro call_api prompt
    rfl
  · intro screen st p s hscreen hf hm hhigh hqual
    have hadm : admissionOf p.feed_group (parse_response s) = false := by
      simp only [admissionOf, hhigh, hqual, hf, hm]
      rfl
    constructor
    · have h2 : (parse_response s).is_relevant
          = ((parse_response s).field_match || (parse_response s).method_match) := rfl
      rw [h2, hf, hm]
      rfl
    · rw [runStep_ok_normal screen st p (parse_response s) hscreen]
      simp [hadm, recordsFor_mark, recordOf]

/-- Witness for C10: a `field ∧ ¬method` response over the default group. -/
theorem C10_is_relevant_recomputed_witness :
    (parse_response "FIELD_MATCH: yes").is_relevant = true
    ∧ recordsFor (runStep (fun _ => Except.ok (parse_response "FIELD_MATCH: yes"))
        markNormal { db := [], relevant_papers := [], calls := [], errors := [] }
        paperA).db paperA.link
      = [recordOf paperA false (parse_response "FIELD_MATCH: yes")] :=
  C10_is_relevant_recomputed.2 (fun _ => Except.ok (parse_response "FIELD_MATCH: yes"))
    { db := [], relevant_papers := [], calls := [], errors := [] } paperA
    "FIELD_MATCH: yes" rfl (by decide) (by decide) (by decide) (by decide)

end AgentRss
